import Mathlib

/-!
Shallow embedding of the device-monitoring dashboard client
(state store, SSE client, fallback-polling coordinator).
-/

/-- Dynamic JSON-like value, mirroring the untyped JS values the dashboard
state store and SSE client manipulate.  JS numbers are modelled as exact
rationals; `null` also stands for an absent (`undefined`) field, which the
source code never distinguishes (it only uses `!= null`, `??` and truthiness).
Object entries keep insertion order, as JS objects do. -/
inductive JVal where
  | null : JVal
  | bool (b : Bool) : JVal
  | num (q : Rat) : JVal
  | str (s : String) : JVal
  | arr (elems : List JVal) : JVal
  | obj (entries : List (String × JVal)) : JVal
deriving Repr

/-- JS truthiness of a value (empty arrays and objects are truthy). -/
def truthy : JVal → Bool
  | .null => false
  | .bool b => b
  | .num q => q != 0
  | .str s => s != ""
  | .arr _ => true
  | .obj _ => true

/-- The JS test `x != null` (true for anything but null/undefined). -/
def notNull : JVal → Bool
  | .null => false
  | _ => true

/-- Property read `o.k`: null when the key is absent or the value not an object. -/
def getF (o : JVal) (k : String) : JVal :=
  match o with
  | .obj entries =>
      match entries.find? (fun p => p.1 == k) with
      | some p => p.2
      | none => .null
  | _ => .null

/-- Replace the value under key `k`, keeping entry order; a fresh key is
appended at the end, as JS property creation does. -/
def setEntries (entries : List (String × JVal)) (k : String) (v : JVal) : List (String × JVal) :=
  if entries.any (fun p => p.1 == k) then
    entries.map (fun p => if p.1 == k then (k, v) else p)
  else entries ++ [(k, v)]

/-- Property write `o.k = v` (no-op on non-objects, which the source never hits). -/
def setF (o : JVal) (k : String) (v : JVal) : JVal :=
  match o with
  | .obj entries => .obj (setEntries entries k v)
  | other => other

/-- Numeric coercion used for the JS idiom `(x || 0)` on counter fields:
a number is kept (0 stays 0 through the `|| 0` branch), anything non-numeric
collapses to 0.  The source only ever applies it to numeric or absent fields. -/
def orZero : JVal → Rat
  | .num q => q
  | _ => 0

/-- The JS idiom `a || b` on payload fields (first value if truthy, else second). -/
def jsOr (a b : JVal) : JVal :=
  if truthy a then a else b

namespace StateStore

/-- The mutable module-level `dashboardState` object of
`static/js/dashboard/discovery.js` (state-management part), field for field.
`lastUpdated` holds `num t` for a `Date` with epoch-milliseconds `t`.
`extraProps` records own properties created by assigning through a name that
is not one of the declared slices (possible in `updateState` because the JS
`in` test also accepts names inherited from `Object.prototype`); no other
code path of the module reads them, but `getState()` would expose them. -/
structure DashboardState where
  summary : JVal
  trends : JVal
  topProblems : JVal
  inventory : JVal
  alerts : JVal
  lastUpdated : JVal
  isLoading : JVal
  error : JVal
  connectionStatus : JVal
  lastEventId : JVal
  realtimeEvents : JVal
  realtimeInterfaces : JVal
  networkIOTrend : JVal
  extraProps : List (String × JVal)
deriving Repr

/-- Initial value of `dashboardState`. -/
def initState : DashboardState :=
  { summary := .null, trends := .null, topProblems := .null, inventory := .null
  , alerts := .null, lastUpdated := .null, isLoading := .bool false, error := .null
  , connectionStatus := .str "disconnected", lastEventId := .null
  , realtimeEvents := .arr [], realtimeInterfaces := .null, networkIOTrend := .null
  , extraProps := [] }

/-- The own (declared) keys of `dashboardState`. -/
def stateKeys : List String :=
  ["summary", "trends", "topProblems", "inventory", "alerts", "lastUpdated",
   "isLoading", "error", "connectionStatus", "lastEventId", "realtimeEvents",
   "realtimeInterfaces", "networkIOTrend"]

/-- Property names that every plain object inherits from `Object.prototype`,
for which the JS `in` operator also succeeds via the prototype chain. -/
def protoKeys : List String :=
  ["constructor", "hasOwnProperty", "isPrototypeOf", "propertyIsEnumerable",
   "toLocaleString", "toString", "valueOf", "__proto__",
   "__defineGetter__", "__defineSetter__", "__lookupGetter__", "__lookupSetter__"]

/-- The JS test `key in dashboardState`: true for the own slice keys and also
for the names inherited from `Object.prototype`. -/
def knownKey (key : String) : Bool :=
  stateKeys.any (fun k => k == key) || protoKeys.any (fun k => k == key)

/-- `dashboardState[key] = data` for a key accepted by the `in` test.  A
declared slice is replaced; any other accepted key (an inherited name such as
`toString`) creates or replaces an own property shadowing the prototype.
The one divergence: a JS assignment to the `__proto__` accessor would mutate
the prototype link instead of creating an own property; the model keeps the
prototype chain immutable and records that write inertly, which no later read
in the module can distinguish. -/
def setKey (ds : DashboardState) (key : String) (v : JVal) : DashboardState :=
  match key with
  | "summary" => { ds with summary := v }
  | "trends" => { ds with trends := v }
  | "topProblems" => { ds with topProblems := v }
  | "inventory" => { ds with inventory := v }
  | "alerts" => { ds with alerts := v }
  | "lastUpdated" => { ds with lastUpdated := v }
  | "isLoading" => { ds with isLoading := v }
  | "error" => { ds with error := v }
  | "connectionStatus" => { ds with connectionStatus := v }
  | "lastEventId" => { ds with lastEventId := v }
  | "realtimeEvents" => { ds with realtimeEvents := v }
  | "realtimeInterfaces" => { ds with realtimeInterfaces := v }
  | "networkIOTrend" => { ds with networkIOTrend := v }
  | _ => { ds with extraProps := setEntries ds.extraProps key v }

/-- The cacheable subset serialized by `saveToCache` (`cacheData.data`). -/
structure CacheData where
  summary : JVal
  trends : JVal
  topProblems : JVal
  inventory : JVal
  realtimeInterfaces : JVal
  networkIOTrend : JVal
deriving Repr

/-- Contents of `localStorage[STORAGE_KEY]`: either a JSON-parsable snapshot
`{timestamp, data}` or an unparsable string (`corrupt`). -/
inductive RawCache where
  | corrupt : RawCache
  | valid (timestamp : Nat) (data : CacheData) : RawCache
deriving Repr

/-- The whole state-store world: the in-memory `dashboardState`, the persisted
`localStorage` entry, whether `localStorage.setItem` currently succeeds
(`storageOk = false` models a quota/storage failure that makes it throw),
and counters for `notifyListeners` calls and `console.warn` logs. -/
structure Store where
  ds : DashboardState
  cacheRaw : Option RawCache
  storageOk : Bool
  notifyCount : Nat
  warnCount : Nat
deriving Repr

/-- The slice values `saveToCache` serializes. -/
def cacheDataOf (ds : DashboardState) : CacheData :=
  { summary := ds.summary, trends := ds.trends, topProblems := ds.topProblems
  , inventory := ds.inventory, realtimeInterfaces := ds.realtimeInterfaces
  , networkIOTrend := ds.networkIOTrend }

/-- `saveToCache()`: writes `{timestamp: Date.now(), data: slices}` under the
fixed storage key; a storage failure is caught and logged (`console.warn`),
so the function is total (never throws). -/
def saveToCache (now : Nat) (st : Store) : Store :=
  if st.storageOk then
    { st with cacheRaw := some (.valid now (cacheDataOf st.ds)) }
  else
    { st with warnCount := st.warnCount + 1 }

/-- `updateState(key, data)`: replaces a known slice wholesale, stamps
`lastUpdated`, notifies listeners and saves to cache; an unknown key only
logs a warning. -/
def updateState (key : String) (v : JVal) (now : Nat) (st : Store) : Store :=
  if knownKey key then
    let ds := setKey st.ds key v
    let ds := { ds with lastUpdated := .num (now : Rat) }
    saveToCache now { st with ds := ds, notifyCount := st.notifyCount + 1 }
  else
    { st with warnCount := st.warnCount + 1 }

/-- Seven days in milliseconds, the staleness bound of `loadFromCache`. -/
def SEVEN_DAYS_MS : Nat := 1000 * 60 * 60 * 24 * 7

/-- Lines 235-240 of the source: each slice of the snapshot is copied into
the in-memory state when truthy. -/
def hydrate (d : CacheData) (ds : DashboardState) : DashboardState :=
  let ds := if truthy d.summary then { ds with summary := d.summary } else ds
  let ds := if truthy d.trends then { ds with trends := d.trends } else ds
  let ds := if truthy d.topProblems then { ds with topProblems := d.topProblems } else ds
  let ds := if truthy d.inventory then { ds with inventory := d.inventory } else ds
  let ds := if truthy d.realtimeInterfaces then { ds with realtimeInterfaces := d.realtimeInterfaces } else ds
  let ds := if truthy d.networkIOTrend then { ds with networkIOTrend := d.networkIOTrend } else ds
  ds

/-- `loadFromCache()`: returns the boolean result together with the store
after the call.  An absent entry, a JSON parse failure (caught) or a snapshot
older than seven days leaves the store untouched and yields false. -/
def loadFromCache (now : Nat) (st : Store) : Bool × Store :=
  match st.cacheRaw with
  | none => (false, st)
  | some .corrupt => (false, st)
  | some (.valid ts d) =>
      if (now : Int) - (ts : Int) > (SEVEN_DAYS_MS : Int) then (false, st)
      else
        let ds := hydrate d st.ds
        (true, { st with ds := { ds with lastUpdated := .num (ts : Rat) } })

/-- `new_state === CRITICAL || new_state === down` (strict JS equality). -/
def isDownState (v : JVal) : Bool :=
  match v with
  | .str s => s == "CRITICAL" || s == "down"
  | _ => false

/-- `new_state === OK || new_state === up`. -/
def isUpState (v : JVal) : Bool :=
  match v with
  | .str s => s == "OK" || s == "up"
  | _ => false

/-- The `device_status` reducer body on `summary.devices` (lines 290-315):
counters are bumped only when the field is present (`!= null`), decrements
floor at 0 via `Math.max`, and the online percentage is recomputed from the
updated counters. -/
def applyDeviceStatus (payload : JVal) (devices : JVal) : JVal :=
  let isDown := isDownState (getF payload "new_state")
  let isUp := isUpState (getF payload "new_state")
  let d := devices
  let d :=
    if isDown then
      let d := if notNull (getF d "offline") then setF d "offline" (.num (orZero (getF d "offline") + 1)) else d
      let d := if notNull (getF d "down") then setF d "down" (.num (orZero (getF d "down") + 1)) else d
      let d := if notNull (getF d "online") then setF d "online" (.num (max 0 (orZero (getF d "online") - 1))) else d
      let d := if notNull (getF d "up") then setF d "up" (.num (max 0 (orZero (getF d "up") - 1))) else d
      d
    else if isUp then
      let d := if notNull (getF d "online") then setF d "online" (.num (orZero (getF d "online") + 1)) else d
      let d := if notNull (getF d "up") then setF d "up" (.num (orZero (getF d "up") + 1)) else d
      let d := if notNull (getF d "offline") then setF d "offline" (.num (max 0 (orZero (getF d "offline") - 1))) else d
      let d := if notNull (getF d "down") then setF d "down" (.num (max 0 (orZero (getF d "down") - 1))) else d
      d
    else d
  let total : Rat := match getF d "total" with | .num q => q | _ => 0
  let online : Rat :=
    match getF d "online" with
    | .num q => q
    | .null => (match getF d "up" with | .num q => q | _ => 0)
    | _ => 0
  let percent : Rat := if 0 < total then ((round (online / total * 1000) : Int) : Rat) / 10 else 0
  let d :=
    if notNull (getF d "online_percent") || !notNull (getF d "up_percent") then
      setF d "online_percent" (.num percent)
    else d
  setF d "up_percent" (.num percent)

/-- `(payload.severity || INFO).toLowerCase()` with a string severity; a
non-string (hence non-lowercasable) or falsy value falls back to the default. -/
def severityOr (v : JVal) (dflt : String) : String :=
  match v with
  | .str s => if s == "" then dflt else s
  | _ => dflt

/-- String interpolation of a payload field as in the template literal
building the fallback alert message (an absent field prints as undefined). -/
def jsTemplateStr : JVal → String
  | .null => "undefined"
  | .str s => s
  | .bool b => if b then "true" else "false"
  | .num q => toString q
  | .arr _ => ""
  | .obj _ => "[object Object]"

/-- `mergeRealtimeUpdate(eventType, payload)` (lines 269-366), with `now`
standing for the wall clock read by `new Date()` / `toISOString()`.
It prepends to the bounded `realtimeEvents` buffer, applies the per-type
reducer to `summary`, maintains `topProblems.recent_alerts` for alerts,
stamps `lastUpdated` and notifies listeners.  It does not touch the cache. -/
def mergeRealtimeUpdate (eventType : String) (payload : JVal) (now : Nat) (st : Store) : Store :=
  let ds := st.ds
  let ev : JVal := .obj [("type", .str eventType), ("payload", payload), ("timestamp", .num (now : Rat))]
  let ds :=
    match ds.realtimeEvents with
    | .arr l =>
        let l := ev :: l
        { ds with realtimeEvents := .arr (if 50 < l.length then l.dropLast else l) }
    | _ => ds
  let ds :=
    if truthy ds.summary then
      match eventType with
      | "device_status" =>
          if truthy (getF ds.summary "devices") then
            { ds with summary := setF ds.summary "devices" (applyDeviceStatus payload (getF ds.summary "devices")) }
          else ds
      | "alert_created" =>
          if truthy (getF ds.summary "active_alerts") then
            let aa := getF ds.summary "active_alerts"
            let severity := (severityOr (getF payload "severity") "INFO").toLower
            let aa :=
              if severity == "critical" then setF aa "critical" (.num (orZero (getF aa "critical") + 1))
              else if severity == "warning" then setF aa "warning" (.num (orZero (getF aa "warning") + 1))
              else setF aa "info" (.num (orZero (getF aa "info") + 1))
            { ds with summary := setF ds.summary "active_alerts" aa }
          else ds
      | "latency_spike" =>
          if truthy (getF ds.summary "network_health") && truthy (getF payload "latency_ms") then
            let nh := getF ds.summary "network_health"
            let currentAvg := orZero (getF nh "avg_latency_ms")
            let lat := orZero (getF payload "latency_ms")
            let newAvg : Rat := ((round ((currentAvg * (8 / 10) + lat * (2 / 10)) * 100) : Int) : Rat) / 100
            { ds with summary := setF ds.summary "network_health" (setF nh "avg_latency_ms" (.num newAvg)) }
          else ds
      | _ => ds
    else ds
  let ds :=
    if eventType == "alert_created" && truthy ds.topProblems then
      let newAlert : JVal := .obj
        [ ("device_ip", getF payload "device_ip")
        , ("message", jsOr (getF payload "message") (.str (jsTemplateStr (getF payload "metric_name") ++ " alert")))
        , ("severity", jsOr (getF payload "severity") (.str "WARNING"))
        , ("time", .num (now : Rat)) ]
      let ra := match getF ds.topProblems "recent_alerts" with | .arr l => l | _ => []
      { ds with topProblems := setF ds.topProblems "recent_alerts" (.arr ((newAlert :: ra).take 10)) }
    else ds
  let ds := { ds with lastUpdated := .num (now : Rat) }
  { st with ds := ds, notifyCount := st.notifyCount + 1 }

end StateStore

namespace SSE

/-- Configuration constants of `sseClient.js`, in milliseconds. -/
def INITIAL_RETRY_DELAY : Nat := 1000

/-- Hard cap of the reconnect backoff. -/
def MAX_RETRY_DELAY : Nat := 30000

/-- Module-level state of `sseClient.js`.  Timer handles are modelled as
flags (`retryScheduled` carries the delay of the pending reconnect timer);
`lastEventIds` is the JS `Set` in insertion order; `changeNotifs` records the
statuses delivered to the registered `onConnectionChange` callback, in order. -/
structure SSEState where
  eventSourceOpen : Bool
  connectionStatus : String
  retryDelay : Nat
  retryScheduled : Option Nat
  heartbeatArmed : Bool
  lastEventIds : List String
  eventBuffer : List (String × JVal)
  debounceArmed : Bool
  changeNotifs : List String
deriving Repr

/-- The module-level initial state (a cold client before any connect). -/
def initSSE : SSEState :=
  { eventSourceOpen := false, connectionStatus := "disconnected"
  , retryDelay := INITIAL_RETRY_DELAY, retryScheduled := none
  , heartbeatArmed := false, lastEventIds := [], eventBuffer := []
  , debounceArmed := false, changeNotifs := [] }

/-- `setConnectionStatus(status)`: early return when unchanged, otherwise
store the new status and invoke `onConnectionChange`. -/
def setConnectionStatus (status : String) (s : SSEState) : SSEState :=
  if s.connectionStatus == status then s
  else { s with connectionStatus := status, changeNotifs := s.changeNotifs ++ [status] }

/-- The synchronous part of `connect()`: close any existing transport, set
status to CONNECTING, create the EventSource. -/
def connectAttempt (s : SSEState) : SSEState :=
  let s := setConnectionStatus "connecting" s
  { s with eventSourceOpen := true }

/-- The `onopen` callback: status CONNECTED, backoff reset, heartbeat armed. -/
def onOpen (s : SSEState) : SSEState :=
  let s := setConnectionStatus "connected" s
  { s with retryDelay := INITIAL_RETRY_DELAY, heartbeatArmed := true }

/-- `handleDisconnect()`: close the transport, status DISCONNECTED, cancel the
heartbeat, schedule a reconnect after the current `retryDelay`, then double the
delay up to the cap. -/
def handleDisconnect (s : SSEState) : SSEState :=
  let s := { s with eventSourceOpen := false }
  let s := setConnectionStatus "disconnected" s
  let s := { s with heartbeatArmed := false, retryScheduled := some s.retryDelay }
  { s with retryDelay := min (s.retryDelay * 2) MAX_RETRY_DELAY }

/-- `disconnect()`: cancel retry, heartbeat and debounce timers, close the
transport, set status DISCONNECTED. -/
def disconnect (s : SSEState) : SSEState :=
  let s := { s with retryScheduled := none, heartbeatArmed := false, debounceArmed := false }
  let s := { s with eventSourceOpen := false }
  setConnectionStatus "disconnected" s

/-- The event id read by the dedup logic: `data.event_id` must be present and
truthy (event ids are strings in this system; the empty string is falsy). -/
def eidOf (data : JVal) : Option String :=
  match getF data "event_id" with
  | .str s => if s == "" then none else some s
  | _ => none

/-- `handleEvent(eventType, event)`.  `raw` is the result of `JSON.parse` on
the frame body, `none` when parsing threw (caught: the event is dropped and
only the heartbeat was rearmed).  A duplicate id is dropped; a new id is added
to the window, evicting the oldest when the window exceeds 100; surviving
events are appended to the debounce buffer. -/
def handleEvent (eventType : String) (raw : Option JVal) (s : SSEState) : SSEState :=
  let s := { s with heartbeatArmed := true }
  match raw with
  | none => s
  | some data =>
      match eidOf data with
      | some id =>
          if id ∈ s.lastEventIds then s
          else
            let ids := s.lastEventIds ++ [id]
            let ids := if 100 < ids.length then ids.tail else ids
            { s with lastEventIds := ids
                   , eventBuffer := s.eventBuffer ++ [(eventType, data)]
                   , debounceArmed := true }
      | none =>
          { s with eventBuffer := s.eventBuffer ++ [(eventType, data)], debounceArmed := true }

/-- An inbound frame: event name plus parsed body (`none` = malformed JSON). -/
abbrev InEvent := String × Option JVal

/-- Fold a sequence of inbound frames through `handleEvent`. -/
def runEvents (l : List InEvent) (s : SSEState) : SSEState :=
  l.foldl (fun s e => handleEvent e.1 e.2 s) s

/-- Fold a sequence of `setConnectionStatus` calls. -/
def runStatuses (l : List String) (s : SSEState) : SSEState :=
  l.foldl (fun s st => setConnectionStatus st s) s

/-- Event ids of the buffered (passed-through) events, in buffer order. -/
def bufEids (s : SSEState) : List String :=
  s.eventBuffer.filterMap (fun e => eidOf e.2)

/-- `flushEventBuffer()` dispatch order: events grouped by type in type
discovery order; within a type, arrival order.  The returned list is the
sequence of handler invocations (one per buffered event). -/
def flushDispatches (buf : List (String × JVal)) : List (String × JVal) :=
  let types := (buf.map (fun e => e.1)).foldl (fun acc t => if t ∈ acc then acc else acc ++ [t]) []
  types.flatMap (fun t => buf.filter (fun e => e.1 == t))

/-- One failed connection attempt: `connect()` then the `onerror` path. -/
def failOnce (s : SSEState) : SSEState :=
  handleDisconnect (connectAttempt s)

/-- The reconnect delays scheduled by `n` consecutive failed attempts. -/
def coldFailureDelays : Nat → SSEState → List Nat
  | 0, _ => []
  | n + 1, s =>
      let s1 := failOnce s
      s1.retryScheduled.getD 0 :: coldFailureDelays n s1

/-- Pure backoff recurrence: emit the current delay, continue with the
doubled-and-capped delay. -/
def delaySeq : Nat → Nat → List Nat
  | 0, _ => []
  | n + 1, d => d :: delaySeq n (min (d * 2) MAX_RETRY_DELAY)

/-- Event ids carried by a frame sequence (frames without an id are skipped). -/
def evIds (l : List InEvent) : List String :=
  l.filterMap (fun e => e.2.bind eidOf)

/-- Insert an id at the end unless already present (first-occurrence order). -/
def insertNew (acc : List String) (id : String) : List String :=
  if id ∈ acc then acc else acc ++ [id]

/-- The distinct ids of a list in first-occurrence order. -/
def firstOccs (l : List String) : List String :=
  l.foldl insertNew []

/-- Window update of `handleEvent` for a single id, as a pure function. -/
def windAdd (acc : List String) (id : String) : List String :=
  let l := acc ++ [id]
  if 100 < l.length then l.tail else l

/-- Window evolution across a frame sequence. -/
def windStep (acc : List String) (e : InEvent) : List String :=
  match e.2.bind eidOf with
  | none => acc
  | some id => if id ∈ acc then acc else windAdd acc id

/-- The ids passed through to the buffer by a frame sequence starting from
window `acc`. -/
def passes (acc : List String) : List InEvent → List String
  | [] => []
  | e :: t =>
      match e.2.bind eidOf with
      | none => passes acc t
      | some id => if id ∈ acc then passes acc t else id :: passes (windAdd acc id) t

end SSE

namespace Fallback

/-- Polling interval constant of the orchestrator (ms). -/
def POLLING_INTERVAL_MS : Nat := 30000

/-- Fallback-coordinator state of the orchestrator module: the live interval
timers of the page as (handle, period) pairs, a fresh-handle counter, and the
module variable `pollingInterval` holding the handle returned by
`setInterval` (or null). -/
structure FbState where
  timers : List (Nat × Nat)
  nextId : Nat
  pollingInterval : Option Nat
deriving Repr, DecidableEq

/-- Initial coordinator state (`pollingInterval = null`, no timers). -/
def initFb : FbState :=
  { timers := [], nextId := 0, pollingInterval := none }

/-- `startPollingFallback()`: no-op when a loop is already active, otherwise
start one interval timer at the fixed period and remember its handle. -/
def startPollingFallback (f : FbState) : FbState :=
  match f.pollingInterval with
  | some _ => f
  | none =>
      { f with timers := f.timers ++ [(f.nextId, POLLING_INTERVAL_MS)]
             , pollingInterval := some f.nextId
             , nextId := f.nextId + 1 }

/-- `stopPollingFallback()`: no-op when no loop is active, otherwise clear the
remembered interval timer and null the handle. -/
def stopPollingFallback (f : FbState) : FbState :=
  match f.pollingInterval with
  | none => f
  | some h =>
      { f with timers := f.timers.filter (fun t => t.1 != h)
             , pollingInterval := none }

/-- The polling decision of the `onConnectionChange` callback registered by
the orchestrator (its state-store and indicator updates are outside this
component): DISCONNECTED starts the fallback loop, CONNECTED stops it,
any other status leaves it alone. -/
def onConnChange (status : String) (f : FbState) : FbState :=
  if status == "disconnected" then startPollingFallback f
  else if status == "connected" then stopPollingFallback f
  else f

/-- Fold a sequence of connection-status notifications. -/
def runConn (l : List String) (f : FbState) : FbState :=
  l.foldl (fun f s => onConnChange s f) f

/-- Coordinator invariant: the handle variable and the set of live timers
agree, and at most one polling timer exists, always at the fixed period. -/
def FbInv (f : FbState) : Prop :=
  (f.pollingInterval = none ∧ f.timers = []) ∨
  (∃ h, f.pollingInterval = some h ∧ f.timers = [(h, POLLING_INTERVAL_MS)])

end Fallback
open SSE in
theorem failOnce_retryScheduled (s : SSEState) : (failOnce s).retryScheduled = some s.retryDelay := by
  simp only [failOnce, connectAttempt, handleDisconnect, setConnectionStatus]
  split <;> split <;> rfl

open SSE in
theorem failOnce_retryDelay (s : SSEState) : (failOnce s).retryDelay = min (s.retryDelay * 2) MAX_RETRY_DELAY := by
  simp only [failOnce, connectAttempt, handleDisconnect, setConnectionStatus]
  split <;> split <;> rfl

open SSE in
theorem coldFailureDelays_eq_delaySeq : ∀ (n : Nat) (s : SSEState), coldFailureDelays n s = delaySeq n s.retryDelay := by
  intro n
  induction n with
  | zero => intro s; rfl
  | succ n ih =>
      intro s
      simp only [coldFailureDelays, delaySeq, failOnce_retryScheduled, Option.getD_some, ih,
        failOnce_retryDelay, MAX_RETRY_DELAY]

theorem min_double_cap (k : Nat) :
    min (min (1000 * 2 ^ k) 30000 * 2) 30000 = min (1000 * 2 ^ (k + 1)) 30000 := by
  have h : 2 ^ (k + 1) = 2 ^ k * 2 := pow_succ 2 k
  omega

open SSE in
theorem delaySeq_formula : ∀ (n k : Nat),
    delaySeq n (min (1000 * 2 ^ k) 30000) = (List.range n).map (fun i => min (1000 * 2 ^ (k + i)) 30000) := by
  intro n
  induction n with
  | zero => intro k; rfl
  | succ n ih =>
      intro k
      have h2 : delaySeq (n + 1) (min (1000 * 2 ^ k) 30000)
          = min (1000 * 2 ^ k) 30000 :: delaySeq n (min (1000 * 2 ^ (k + 1)) 30000) := by
        simp only [delaySeq, MAX_RETRY_DELAY, min_double_cap]
      rw [h2, ih (k + 1), List.range_succ_eq_map]
      simp only [List.map_cons, List.map_map, Nat.add_zero]
      congr 1
      apply List.map_congr_left
      intro i _
      have hki : k + 1 + i = k + (i + 1) := by omega
      simp only [Function.comp_apply, Nat.succ_eq_add_one, hki]

open SSE in
/-- Claim C2: starting from a cold connect with every connection attempt
failing, the scheduled reconnect delays are exactly 1, 2, 4, 8, 16, 30, 30,
... units of 1000 ms (doubling per consecutive failure, capped at 30000 ms),
and a successful open resets the delay to the initial 1000 ms. -/
theorem backoff_delay_sequence : (∀ n, coldFailureDelays n initSSE = (List.range n).map (fun i => min (1000 * 2 ^ i) 30000)) ∧
    coldFailureDelays 8 initSSE = [1000, 2000, 4000, 8000, 16000, 30000, 30000, 30000] ∧
    (∀ s, (onOpen s).retryDelay = INITIAL_RETRY_DELAY) := by
  refine ⟨fun n => ?_, by decide, fun s => ?_⟩
  · have h := coldFailureDelays_eq_delaySeq n initSSE
    have h0 : initSSE.retryDelay = min (1000 * 2 ^ 0) 30000 := by decide
    rw [h, h0, delaySeq_formula]
    simp
  · rfl
open StateStore in
/-- Claim C8 (amended): updateState rejects a key with a warning and as a
no-op exactly when the JS test `key in dashboardState` fails, that is, when
the key is neither a named state slice nor a property name inherited from
`Object.prototype`; for an inherited name (such as toString) the test passes
and updateState takes the mutation branch instead: it stamps lastUpdated,
notifies subscribers and saves to cache, with no warning. -/
theorem updateState_unknown_key_behavior :
    (∀ (key : String) (v : JVal) (now : Nat) (st : Store),
        knownKey key = false →
        (updateState key v now st).ds = st.ds ∧
        (updateState key v now st).cacheRaw = st.cacheRaw ∧
        (updateState key v now st).notifyCount = st.notifyCount ∧
        (updateState key v now st).warnCount = st.warnCount + 1) ∧
    (∀ (key : String) (v : JVal) (now : Nat) (st : Store),
        protoKeys.any (fun k => k == key) = true → st.storageOk = true →
        (updateState key v now st).ds.lastUpdated = JVal.num (now : Rat) ∧
        (updateState key v now st).notifyCount = st.notifyCount + 1 ∧
        (updateState key v now st).warnCount = st.warnCount ∧
        (updateState key v now st).cacheRaw.isSome = true) := by
  constructor
  · intro key v now st h
    simp [updateState, h]
  · intro key v now st hp hok
    have hk : knownKey key = true := by
      simp only [knownKey, hp, Bool.or_true]
    refine ⟨?_, ?_, ?_, ?_⟩ <;> simp [updateState, hk, saveToCache, hok]

open StateStore in
theorem updateState_unknown_key_behavior_witness :
    knownKey "bogus" = false ∧
    (updateState "bogus" JVal.null 5 ⟨initState, none, true, 0, 0⟩).notifyCount = 0 ∧
    protoKeys.any (fun k => k == "toString") = true ∧
    (updateState "toString" (JVal.num 1) 5 ⟨initState, none, true, 0, 0⟩).notifyCount = 0 + 1 := by
  obtain ⟨hno, hproto⟩ := updateState_unknown_key_behavior
  refine ⟨by decide, ?_, by decide, ?_⟩
  · exact (hno "bogus" JVal.null 5 ⟨initState, none, true, 0, 0⟩ (by decide)).2.2.1
  · exact (hproto "toString" (JVal.num 1) 5 ⟨initState, none, true, 0, 0⟩ (by decide) rfl).2.1

open StateStore in
/-- Claim C8, counterexample to the original statement: toString is not one
of the named state slices, yet `updateState("toString", 1)` issues no warning
and is not a no-op, because the JS `in` test succeeds through the prototype
chain: the call stamps lastUpdated, fires one subscriber notification, writes
the cache and stores the value as an own property. -/
theorem updateState_proto_key_counterexample :
    stateKeys.any (fun k => k == "toString") = false ∧
    (updateState "toString" (JVal.num 1) 5 ⟨initState, none, true, 0, 0⟩).warnCount = 0 ∧
    (updateState "toString" (JVal.num 1) 5 ⟨initState, none, true, 0, 0⟩).notifyCount = 1 ∧
    (updateState "toString" (JVal.num 1) 5 ⟨initState, none, true, 0, 0⟩).ds.lastUpdated
      = JVal.num 5 ∧
    (updateState "toString" (JVal.num 1) 5 ⟨initState, none, true, 0, 0⟩).cacheRaw.isSome
      = true ∧
    (updateState "toString" (JVal.num 1) 5 ⟨initState, none, true, 0, 0⟩).ds.extraProps.length
      = 1 := by
  refine ⟨by decide, rfl, rfl, rfl, rfl, rfl⟩

open SSE in
theorem runStatuses_notifs_inv (l : List String) (s : SSEState)
    (h1 : s.changeNotifs.Chain' (fun a b => a ≠ b))
    (h2 : ∀ x, s.changeNotifs.getLast? = some x → x = s.connectionStatus) :
    ((runStatuses l s).changeNotifs).Chain' (fun a b => a ≠ b) ∧
    (∀ x, (runStatuses l s).changeNotifs.getLast? = some x → x = (runStatuses l s).connectionStatus) := by
  induction l generalizing s with
  | nil => exact ⟨h1, h2⟩
  | cons a t ih =>
      have hstep : runStatuses (a :: t) s = runStatuses t (setConnectionStatus a s) := rfl
      rw [hstep]
      by_cases hc : s.connectionStatus == a
      · have heq : setConnectionStatus a s = s := by
          simp [setConnectionStatus, hc]
        rw [heq]
        exact ih s h1 h2
      · have heq : setConnectionStatus a s
            = { s with connectionStatus := a, changeNotifs := s.changeNotifs ++ [a] } := by
          simp [setConnectionStatus, hc]
        rw [heq]
        apply ih
        · rw [List.chain'_append]
          refine ⟨h1, List.chain'_singleton a, ?_⟩
          intro x hx y hy
          simp only [List.head?_cons, Option.mem_def, Option.some.injEq] at hy
          subst hy
          have := h2 x hx
          subst this
          simpa using hc
        · intro x hx
          simp only at hx ⊢
          rw [List.getLast?_concat] at hx
          exact (Option.some.injEq _ _ ▸ hx).symm

open SSE in
/-- Claim C10: setting the connection status to its current value leaves the
state unchanged and does not invoke the onConnectionChange callback; the
callback fires exactly when the status changes, carrying the new status, so
subscribers never see two consecutive notifications with the same status. -/
theorem setConnectionStatus_dedup_notifications :
    (∀ (status : String) (s : SSEState), s.connectionStatus = status →
        setConnectionStatus status s = s) ∧
    (∀ (status : String) (s : SSEState), s.connectionStatus ≠ status →
        (setConnectionStatus status s).connectionStatus = status ∧
        (setConnectionStatus status s).changeNotifs = s.changeNotifs ++ [status]) ∧
    (∀ l : List String, ((runStatuses l initSSE).changeNotifs).Chain' (fun a b => a ≠ b)) := by
  refine ⟨?_, ?_, ?_⟩
  · intro status s h
    simp [setConnectionStatus, h]
  · intro status s h
    have hb : (s.connectionStatus == status) = false := by
      simpa using h
    constructor <;> simp [setConnectionStatus, hb]
  · intro l
    exact (runStatuses_notifs_inv l initSSE (by simp [initSSE]) (by simp [initSSE])).1

open SSE in
theorem setConnectionStatus_dedup_notifications_witness :
    setConnectionStatus "disconnected" initSSE = initSSE ∧
    (setConnectionStatus "connected" initSSE).changeNotifs = initSSE.changeNotifs ++ ["connected"] ∧
    ((runStatuses ["connected", "connected", "disconnected"] initSSE).changeNotifs).Chain'
      (fun a b => a ≠ b) := by
  obtain ⟨h1, h2, h3⟩ := setConnectionStatus_dedup_notifications
  exact ⟨h1 "disconnected" initSSE rfl, (h2 "connected" initSSE (by decide)).2, h3 _⟩

open SSE in
/-- Claim C6 (amended): disconnect cancels the retry, heartbeat and debounce
timers, closes the transport and sets the status to DISCONNECTED, but neither
disconnect nor handleDisconnect clears the dedup window or the pending event
buffer: both keep all entries from before the disconnect. -/
theorem disconnect_keeps_dedup_window_and_buffer :
    (∀ s : SSEState, (disconnect s).lastEventIds = s.lastEventIds ∧
       (disconnect s).eventBuffer = s.eventBuffer ∧
       (disconnect s).retryScheduled = none ∧
       (disconnect s).heartbeatArmed = false ∧
       (disconnect s).debounceArmed = false ∧
       (disconnect s).eventSourceOpen = false ∧
       (disconnect s).connectionStatus = "disconnected") ∧
    (∀ s : SSEState, (handleDisconnect s).lastEventIds = s.lastEventIds ∧
       (handleDisconnect s).eventBuffer = s.eventBuffer) := by
  constructor
  · intro s
    simp only [disconnect, setConnectionStatus]
    split
    · rename_i h
      simp only [beq_iff_eq] at h
      simp [h]
    · simp
  · intro s
    simp only [handleDisconnect, setConnectionStatus]
    split <;> simp

open SSE in
/-- Claim C6, counterexample to the original statement: after disconnect on a
state holding one seen eventId and one buffered event, the dedup window still
holds that id (it is nonempty) and the buffer still holds one event, so the
two structures are not cleared on disconnect. -/
theorem disconnect_retains_entries_counterexample :
    (disconnect { initSSE with
        lastEventIds := ["e1"]
        eventBuffer := [("device_status", JVal.null)] }).lastEventIds = ["e1"] ∧
    ("e1" :: ([] : List String)) ≠ [] ∧
    (disconnect { initSSE with
        lastEventIds := ["e1"]
        eventBuffer := [("device_status", JVal.null)] }).eventBuffer.length = 1 := by
  refine ⟨by decide, by decide, by rfl⟩

open StateStore in
/-- Claim C1 (amended): after every updateState call with a known slice key,
saveToCache overwrites the persisted snapshot with the serialized cacheable
slices plus a write timestamp, and a persistence failure is caught and logged
(a warning counter bump on a total function, never a thrown error); but
mergeRealtimeUpdate performs no cache write at all: the persisted snapshot is
left exactly as it was. -/
theorem saveToCache_after_updateState_not_merge :
    (∀ (key : String) (v : JVal) (now : Nat) (st : Store),
        knownKey key = true → st.storageOk = true →
        (updateState key v now st).cacheRaw
          = some (RawCache.valid now (cacheDataOf (updateState key v now st).ds))) ∧
    (∀ (key : String) (v : JVal) (now : Nat) (st : Store),
        knownKey key = true → st.storageOk = false →
        (updateState key v now st).cacheRaw = st.cacheRaw ∧
        (updateState key v now st).warnCount = st.warnCount + 1) ∧
    (∀ (t : String) (p : JVal) (now : Nat) (st : Store),
        (mergeRealtimeUpdate t p now st).cacheRaw = st.cacheRaw ∧
        (mergeRealtimeUpdate t p now st).warnCount = st.warnCount) := by
  refine ⟨?_, ?_, ?_⟩
  · intro key v now st hk hok
    simp [updateState, hk, saveToCache, hok]
  · intro key v now st hk hok
    constructor <;> simp [updateState, hk, saveToCache, hok]
  · intro t p now st
    constructor <;> rfl

open StateStore in
theorem saveToCache_after_updateState_not_merge_witness :
    knownKey "summary" = true ∧
    (updateState "summary" (JVal.num 1) 5 ⟨initState, none, true, 0, 0⟩).cacheRaw
      = some (RawCache.valid 5
          (cacheDataOf (updateState "summary" (JVal.num 1) 5 ⟨initState, none, true, 0, 0⟩).ds)) := by
  refine ⟨by decide, ?_⟩
  exact (saveToCache_after_updateState_not_merge).1 "summary" (JVal.num 1) 5
    ⟨initState, none, true, 0, 0⟩ (by decide) rfl

open StateStore in
/-- Claim C1, counterexample to the original statement: a mergeRealtimeUpdate
call on a store with a working storage backend and no persisted snapshot
leaves the snapshot absent, although the claim requires every such mutation
to overwrite it with a fresh timestamped snapshot. -/
theorem merge_leaves_cache_unwritten_counterexample :
    (mergeRealtimeUpdate "device_status" (JVal.obj [("new_state", JVal.str "OK")]) 5
       { ds := { initState with
            summary := JVal.obj [("devices", JVal.obj [("online", JVal.num 3), ("total", JVal.num 4)])] }
         cacheRaw := none
         storageOk := true
         notifyCount := 0
         warnCount := 0 }).cacheRaw = none := rfl
open StateStore in
/-- Claim C5: loadFromCache with a present snapshot younger than 7 days
hydrates the in-memory slices and lastUpdated from it and returns true; with
an absent snapshot, a snapshot older than 7 days, or an unreadable snapshot
it returns false without mutating the store. -/
theorem loadFromCache_hydrates_or_rejects :
    (∀ (now : Nat) (st : Store) (ts : Nat) (d : CacheData),
        st.cacheRaw = some (RawCache.valid ts d) →
        (now : Int) - (ts : Int) < (SEVEN_DAYS_MS : Int) →
        loadFromCache now st
          = (true, { st with ds := { hydrate d st.ds with lastUpdated := JVal.num (ts : Rat) } })) ∧
    (∀ (now : Nat) (st : Store), st.cacheRaw = none → loadFromCache now st = (false, st)) ∧
    (∀ (now : Nat) (st : Store) (ts : Nat) (d : CacheData),
        st.cacheRaw = some (RawCache.valid ts d) →
        (now : Int) - (ts : Int) > (SEVEN_DAYS_MS : Int) →
        loadFromCache now st = (false, st)) ∧
    (∀ (now : Nat) (st : Store), st.cacheRaw = some RawCache.corrupt →
        loadFromCache now st = (false, st)) := by
  refine ⟨?_, ?_, ?_, ?_⟩
  · intro now st ts d hc hfresh
    have hnot : ¬ ((now : Int) - (ts : Int) > (SEVEN_DAYS_MS : Int)) := by omega
    simp [loadFromCache, hc, hnot]
  · intro now st hc
    simp [loadFromCache, hc]
  · intro now st ts d hc hstale
    simp [loadFromCache, hc, hstale]
  · intro now st hc
    simp [loadFromCache, hc]

open StateStore in
theorem loadFromCache_hydrates_or_rejects_witness :
    (loadFromCache 7200000 ⟨initState, some (RawCache.valid 0 (cacheDataOf initState)), true, 0, 0⟩).1 = true ∧
    (loadFromCache 691200000 ⟨initState, some (RawCache.valid 0 (cacheDataOf initState)), true, 0, 0⟩).1 = false ∧
    (loadFromCache 7200000 ⟨initState, none, true, 0, 0⟩).2 = ⟨initState, none, true, 0, 0⟩ := by
  obtain ⟨hfresh, hnone, hstale, _⟩ := loadFromCache_hydrates_or_rejects
  refine ⟨?_, ?_, ?_⟩
  · rw [hfresh 7200000 _ 0 (cacheDataOf initState) rfl (by decide)]
  · rw [hstale 691200000 _ 0 (cacheDataOf initState) rfl (by decide)]
  · rw [hnone 7200000 _ rfl]

open Fallback in
theorem startPollingFallback_inv (f : FbState) (h : FbInv f) : FbInv (startPollingFallback f) := by
  rcases h with ⟨h1, h2⟩ | ⟨hn, h1, h2⟩
  · right
    refine ⟨f.nextId, ?_, ?_⟩ <;> simp [startPollingFallback, h1, h2]
  · right
    refine ⟨hn, ?_, ?_⟩ <;> simp [startPollingFallback, h1, h2]

open Fallback in
theorem stopPollingFallback_inv (f : FbState) (h : FbInv f) : FbInv (stopPollingFallback f) := by
  left
  rcases h with ⟨h1, h2⟩ | ⟨hn, h1, h2⟩ <;>
    constructor <;> simp [stopPollingFallback, h1, h2]

open Fallback in
theorem fbInv_step (status : String) (f : FbState) (h : FbInv f) : FbInv (onConnChange status f) := by
  unfold onConnChange
  split
  · exact startPollingFallback_inv f h
  · split
    · exact stopPollingFallback_inv f h
    · exact h

open Fallback in
theorem fbInv_run (l : List String) (f : FbState) (h : FbInv f) : FbInv (runConn l f) := by
  induction l generalizing f with
  | nil => exact h
  | cons a t ih =>
      have hstep : runConn (a :: t) f = runConn t (onConnChange a f) := rfl
      rw [hstep]
      exact ih _ (fbInv_step a f h)

open Fallback in
/-- Claim C7: across any sequence of connection-status notifications, a
CONNECTED transition stops any active polling loop, a DISCONNECTED transition
leaves exactly one polling loop running at the fixed 30000 ms interval,
starting while a loop is active is a no-op, stopping while none is active is
a no-op, and at most one polling loop is ever live. -/
theorem polling_fallback_single_loop :
    (∀ f : FbState, FbInv f → (onConnChange "connected" f).timers = []) ∧
    (∀ f : FbState, FbInv f →
        ∃ h, (onConnChange "disconnected" f).timers = [(h, POLLING_INTERVAL_MS)]) ∧
    (∀ f : FbState, f.pollingInterval.isSome → startPollingFallback f = f) ∧
    (∀ f : FbState, f.pollingInterval = none → stopPollingFallback f = f) ∧
    (∀ l : List String, (runConn l initFb).timers.length ≤ 1) := by
  refine ⟨?_, ?_, ?_, ?_, ?_⟩
  · intro f h
    rcases h with ⟨h1, h2⟩ | ⟨hn, h1, h2⟩ <;>
      simp [onConnChange, stopPollingFallback, h1, h2]
  · intro f h
    rcases h with ⟨h1, h2⟩ | ⟨hn, h1, h2⟩
    · exact ⟨f.nextId, by simp [onConnChange, startPollingFallback, h1, h2]⟩
    · exact ⟨hn, by simp [onConnChange, startPollingFallback, h1, h2]⟩
  · intro f h
    cases hp : f.pollingInterval with
    | none => rw [hp] at h; simp at h
    | some x => simp [startPollingFallback, hp]
  · intro f h
    simp [stopPollingFallback, h]
  · intro l
    have h := fbInv_run l initFb (Or.inl ⟨rfl, rfl⟩)
    rcases h with ⟨_, h2⟩ | ⟨_, _, h2⟩ <;> simp [h2]

open Fallback in
theorem polling_fallback_single_loop_witness :
    (onConnChange "connected" (onConnChange "disconnected" initFb)).timers = [] ∧
    (∃ h, (onConnChange "disconnected" initFb).timers = [(h, POLLING_INTERVAL_MS)]) ∧
    startPollingFallback (onConnChange "disconnected" initFb) = onConnChange "disconnected" initFb ∧
    stopPollingFallback initFb = initFb ∧
    (runConn ["disconnected", "disconnected", "connected", "disconnected"] initFb).timers.length ≤ 1 := by
  obtain ⟨hstop, hstart, hsno, hpno, hlen⟩ := polling_fallback_single_loop
  refine ⟨?_, ?_, ?_, ?_, hlen _⟩
  · exact hstop _ (fbInv_step "disconnected" initFb (Or.inl ⟨rfl, rfl⟩))
  · exact hstart _ (Or.inl ⟨rfl, rfl⟩)
  · exact hsno _ (by decide)
  · exact hpno _ rfl
open StateStore in
theorem applyDeviceStatus_critical (onl off tot : Rat) (htot : 0 < tot) :
    applyDeviceStatus (JVal.obj [("new_state", JVal.str "CRITICAL")])
        (JVal.obj [("online", JVal.num onl), ("offline", JVal.num off), ("total", JVal.num tot)])
      = JVal.obj [("online", JVal.num (max 0 (onl - 1))), ("offline", JVal.num (off + 1)),
          ("total", JVal.num tot),
          ("online_percent", JVal.num (((round ((max 0 (onl - 1)) / tot * 1000) : Int) : Rat) / 10)),
          ("up_percent", JVal.num (((round ((max 0 (onl - 1)) / tot * 1000) : Int) : Rat) / 10))] := by
  simp [applyDeviceStatus, isDownState, isUpState, getF, setF, setEntries, notNull, orZero, htot]

open StateStore in
/-- Claim C3: merging a device_status event with new_state CRITICAL into a
state whose summary.devices holds numeric online/offline/total counters
decrements online (floored at 0), increments offline, keeps total, and
recomputes the online percentage as round(online/total * 1000)/10 from the
updated counters whenever total is positive; at online 10, offline 0,
total 10 this yields online 9, offline 1, total 10 and percentage 90. -/
theorem merge_device_status_critical (onl off tot : Rat) (now : Nat)
    (cr : Option RawCache) (ok : Bool) (nc wc : Nat) (htot : 0 < tot) :
    let st : Store :=
      ⟨{ initState with
          summary := JVal.obj [("devices",
            JVal.obj [("online", JVal.num onl), ("offline", JVal.num off), ("total", JVal.num tot)])] },
        cr, ok, nc, wc⟩
    let dev := getF ((mergeRealtimeUpdate "device_status"
        (JVal.obj [("new_state", JVal.str "CRITICAL")]) now st).ds.summary) "devices"
    getF dev "online" = JVal.num (max 0 (onl - 1)) ∧
    getF dev "offline" = JVal.num (off + 1) ∧
    getF dev "total" = JVal.num tot ∧
    getF dev "online_percent"
      = JVal.num (((round ((max 0 (onl - 1)) / tot * 1000) : Int) : Rat) / 10) := by
  have happ := applyDeviceStatus_critical onl off tot htot
  dsimp only
  simp only [mergeRealtimeUpdate, initState]
  simp only [truthy, getF, setF, setEntries, List.find?, List.any]
  simp [happ, getF, setF, setEntries]

open StateStore in
theorem merge_device_status_critical_witness :
    (0 : Rat) < 10 ∧
    (getF (getF ((mergeRealtimeUpdate "device_status"
        (JVal.obj [("new_state", JVal.str "CRITICAL")]) 5
        ⟨{ initState with
            summary := JVal.obj [("devices",
              JVal.obj [("online", JVal.num 10), ("offline", JVal.num 0), ("total", JVal.num 10)])] },
          none, true, 0, 0⟩).ds.summary) "devices") "online" = JVal.num 9) ∧
    (getF (getF ((mergeRealtimeUpdate "device_status"
        (JVal.obj [("new_state", JVal.str "CRITICAL")]) 5
        ⟨{ initState with
            summary := JVal.obj [("devices",
              JVal.obj [("online", JVal.num 10), ("offline", JVal.num 0), ("total", JVal.num 10)])] },
          none, true, 0, 0⟩).ds.summary) "devices") "offline" = JVal.num 1) ∧
    (getF (getF ((mergeRealtimeUpdate "device_status"
        (JVal.obj [("new_state", JVal.str "CRITICAL")]) 5
        ⟨{ initState with
            summary := JVal.obj [("devices",
              JVal.obj [("online", JVal.num 10), ("offline", JVal.num 0), ("total", JVal.num 10)])] },
          none, true, 0, 0⟩).ds.summary) "devices") "total" = JVal.num 10) ∧
    (getF (getF ((mergeRealtimeUpdate "device_status"
        (JVal.obj [("new_state", JVal.str "CRITICAL")]) 5
        ⟨{ initState with
            summary := JVal.obj [("devices",
              JVal.obj [("online", JVal.num 10), ("offline", JVal.num 0), ("total", JVal.num 10)])] },
          none, true, 0, 0⟩).ds.summary) "devices") "online_percent" = JVal.num 90) := by
  have h := merge_device_status_critical 10 0 10 5 none true 0 0 (by norm_num)
  dsimp only at h
  obtain ⟨h1, h2, h3, h4⟩ := h
  dsimp only
  refine ⟨by norm_num, ?_, ?_, ?_, ?_⟩
  · rw [h1]
    congr 1
    norm_num
  · rw [h2]
    congr 1
    norm_num
  · exact h3
  · rw [h4]
    congr 1
    have h900 : (0 ⊔ ((10 : Rat) - 1)) / 10 * 1000 = 900 := by
      norm_num
    rw [h900]
    norm_num
open SSE in
theorem handleEvent_dup (t : String) (data : JVal) (id : String) (s : SSEState)
    (h1 : eidOf data = some id) (h2 : id ∈ s.lastEventIds) :
    handleEvent t (some data) s = { s with heartbeatArmed := true } := by
  simp [handleEvent, h1, h2]

open SSE in
theorem handleEvent_new (t : String) (data : JVal) (id : String) (s : SSEState)
    (h1 : eidOf data = some id) (h2 : id ∉ s.lastEventIds) :
    (handleEvent t (some data) s).lastEventIds = windAdd s.lastEventIds id ∧
    (handleEvent t (some data) s).eventBuffer = s.eventBuffer ++ [(t, data)] := by
  constructor <;> simp [handleEvent, windAdd, h1, h2]

open SSE in
theorem handleEvent_window_eq (e : InEvent) (s : SSEState) :
    (handleEvent e.1 e.2 s).lastEventIds = windStep s.lastEventIds e := by
  obtain ⟨t, raw⟩ := e
  cases raw with
  | none => simp [handleEvent, windStep]
  | some data =>
      cases h : eidOf data with
      | none => simp [handleEvent, windStep, h]
      | some id =>
          by_cases hm : id ∈ s.lastEventIds
          · simp [handleEvent, windStep, h, hm]
          · simp [handleEvent, windStep, windAdd, h, hm]

open SSE in
theorem handleEvent_buf_eids (e : InEvent) (s : SSEState) :
    bufEids (handleEvent e.1 e.2 s)
      = bufEids s ++ (match e.2.bind eidOf with
          | none => []
          | some id => if id ∈ s.lastEventIds then [] else [id]) := by
  obtain ⟨t, raw⟩ := e
  cases raw with
  | none => simp [handleEvent, bufEids]
  | some data =>
      cases h : eidOf data with
      | none => simp [handleEvent, bufEids, h]
      | some id =>
          by_cases hm : id ∈ s.lastEventIds
          · simp [handleEvent, bufEids, h, hm]
          · simp [handleEvent, bufEids, h, hm]

open SSE in
theorem runEvents_window (l : List InEvent) : ∀ s : SSEState,
    (runEvents l s).lastEventIds = l.foldl windStep s.lastEventIds := by
  induction l with
  | nil => intro s; rfl
  | cons e tl ih =>
      intro s
      have hstep : runEvents (e :: tl) s = runEvents tl (handleEvent e.1 e.2 s) := rfl
      have hfold : (e :: tl).foldl windStep s.lastEventIds
          = tl.foldl windStep (windStep s.lastEventIds e) := rfl
      rw [hstep, hfold, ih, handleEvent_window_eq]

open SSE in
theorem runEvents_buf (l : List InEvent) : ∀ s : SSEState,
    bufEids (runEvents l s) = bufEids s ++ passes s.lastEventIds l := by
  induction l with
  | nil => intro s; simp [passes, runEvents]
  | cons e tl ih =>
      intro s
      have hstep : runEvents (e :: tl) s = runEvents tl (handleEvent e.1 e.2 s) := rfl
      rw [hstep, ih]
      rw [handleEvent_buf_eids, handleEvent_window_eq]
      cases h : e.2.bind eidOf with
      | none => simp [passes, windStep, h]
      | some id =>
          by_cases hm : id ∈ s.lastEventIds
          · simp [passes, windStep, h, hm]
          · simp [passes, windStep, h, hm, List.append_assoc]

open SSE in
theorem foldl_insertNew_extends (l : List String) : ∀ acc : List String,
    ∃ t, l.foldl insertNew acc = acc ++ t := by
  induction l with
  | nil => intro acc; exact ⟨[], by simp⟩
  | cons a tl ih =>
      intro acc
      by_cases hm : a ∈ acc
      · have h1 : (a :: tl).foldl insertNew acc = tl.foldl insertNew acc := by
          simp [insertNew, hm]
        rw [h1]; exact ih acc
      · have h1 : (a :: tl).foldl insertNew acc = tl.foldl insertNew (acc ++ [a]) := by
          simp [insertNew, hm]
        rw [h1]
        obtain ⟨t, ht⟩ := ih (acc ++ [a])
        exact ⟨[a] ++ t, by rw [ht, List.append_assoc]⟩

open SSE in
theorem foldl_insertNew_length (l : List String) (acc : List String) :
    acc.length ≤ (l.foldl insertNew acc).length := by
  obtain ⟨t, ht⟩ := foldl_insertNew_extends l acc
  rw [ht]
  simp

open SSE in
theorem insertNew_nodup (acc : List String) (id : String) (h : acc.Nodup) :
    (insertNew acc id).Nodup := by
  unfold insertNew
  by_cases hm : id ∈ acc
  · simp [hm, h]
  · simp [hm, h, List.nodup_append]

open SSE in
theorem foldl_insertNew_nodup (l : List String) : ∀ acc : List String,
    acc.Nodup → (l.foldl insertNew acc).Nodup := by
  induction l with
  | nil => intro acc h; exact h
  | cons a tl ih =>
      intro acc h
      exact ih (insertNew acc a) (insertNew_nodup acc a h)

open SSE in
theorem passes_eq (l : List InEvent) : ∀ acc : List String,
    ((evIds l).foldl insertNew acc).length ≤ 100 →
    passes acc l = ((evIds l).foldl insertNew acc).drop acc.length := by
  induction l with
  | nil =>
      intro acc _
      simp [passes, evIds]
  | cons e tl ih =>
      intro acc hlen
      cases h : e.2.bind eidOf with
      | none =>
          have hids : evIds (e :: tl) = evIds tl := by
            simp [evIds, h]
          rw [hids] at hlen
          have := ih acc hlen
          simpa [passes, h, hids] using this
      | some id =>
          have hids : evIds (e :: tl) = id :: evIds tl := by
            simp [evIds, h]
          by_cases hm : id ∈ acc
          · have hfold : (evIds (e :: tl)).foldl insertNew acc = (evIds tl).foldl insertNew acc := by
              rw [hids]
              simp [insertNew, hm]
            rw [hfold] at hlen
            have := ih acc hlen
            simp [passes, h, hm, hfold, this]
          · have hfold : (evIds (e :: tl)).foldl insertNew acc
                = (evIds tl).foldl insertNew (acc ++ [id]) := by
              rw [hids]
              simp [insertNew, hm]
            rw [hfold] at hlen
            have hsub : (acc ++ [id]).length ≤ 100 :=
              le_trans (foldl_insertNew_length (evIds tl) (acc ++ [id])) hlen
            have hlen2 : (acc ++ [id]).length = acc.length + 1 := by simp
            have hwind : windAdd acc id = acc ++ [id] := by
              have hlt : ¬ (100 < acc.length + 1) := by omega
              simp [windAdd, hlt]
            have hih := ih (acc ++ [id]) hlen
            obtain ⟨t, ht⟩ := foldl_insertNew_extends (evIds tl) (acc ++ [id])
            have hdrop1 : ((evIds tl).foldl insertNew (acc ++ [id])).drop (acc ++ [id]).length = t := by
              rw [ht, List.drop_left]
            have hdrop2 : ((evIds tl).foldl insertNew (acc ++ [id])).drop acc.length = id :: t := by
              rw [ht, List.append_assoc, List.singleton_append, List.drop_left]
            have hpass : passes acc (e :: tl) = id :: passes (windAdd acc id) tl := by
              simp [passes, h, hm]
            rw [hpass, hwind, hih, hfold, hdrop2]
            rw [List.length_append] at hdrop1
            simpa using hdrop1
open SSE in
theorem handleEvent_window_nodup (t : String) (raw : Option JVal) (s : SSEState)
    (h : s.lastEventIds.Nodup) : (handleEvent t raw s).lastEventIds.Nodup := by
  have he := handleEvent_window_eq (t, raw) s
  dsimp only at he
  rw [he]
  unfold windStep
  cases hb : raw.bind eidOf with
  | none => exact h
  | some id =>
      by_cases hm : id ∈ s.lastEventIds
      · simp [hm, h]
      · have hap : (s.lastEventIds ++ [id]).Nodup := by
          simp [List.nodup_append, h, hm]
        simp only [hm, if_false, ite_false]
        simp only [windAdd]
        split
        · exact (List.tail_sublist _).nodup hap
        · exact hap

open SSE in
theorem handleEvent_window_len (t : String) (raw : Option JVal) (s : SSEState)
    (h : s.lastEventIds.length ≤ 100) : (handleEvent t raw s).lastEventIds.length ≤ 100 := by
  have he := handleEvent_window_eq (t, raw) s
  dsimp only at he
  rw [he]
  unfold windStep
  cases hb : raw.bind eidOf with
  | none => exact h
  | some id =>
      by_cases hm : id ∈ s.lastEventIds
      · simp [hm, h]
      · simp only [hm, ite_false]
        simp only [windAdd]
        split
        · rename_i hgt
          rw [List.length_tail]
          simp only [List.length_append, List.length_singleton] at *
          omega
        · rename_i hle
          simp only [not_lt] at hle
          omega

/-- Claim C4 (amended): an inbound event whose eventId already sits in the dedup
window is dropped silently (only the heartbeat is rearmed); an event whose
eventId is new is inserted into the window and passed through to the buffer;
and for every sequence of inbound events containing at most 100 distinct
eventIds, each id reaches the buffer (hence its handler) at most once.  The
universal at-most-once property of the original claim fails once eviction of
the id can occur (see the counterexample). -/
theorem SSE.dedup_handler_at_most_once :
    (∀ (t : String) (data : JVal) (id : String) (s : SSEState),
        eidOf data = some id → id ∈ s.lastEventIds →
        handleEvent t (some data) s = { s with heartbeatArmed := true }) ∧
    (∀ (t : String) (data : JVal) (id : String) (s : SSEState),
        eidOf data = some id → id ∉ s.lastEventIds →
        id ∈ (handleEvent t (some data) s).lastEventIds ∧
        (handleEvent t (some data) s).eventBuffer = s.eventBuffer ++ [(t, data)]) ∧
    (∀ l : List InEvent, (firstOccs (evIds l)).length ≤ 100 →
        ∀ id : String, (bufEids (runEvents l initSSE)).count id ≤ 1) := by
  refine ⟨?_, ?_, ?_⟩
  · intro t data id s h1 h2
    exact handleEvent_dup t data id s h1 h2
  · intro t data id s h1 h2
    obtain ⟨hw, hb⟩ := handleEvent_new t data id s h1 h2
    refine ⟨?_, hb⟩
    rw [hw]
    simp only [windAdd]
    split
    · rename_i hgt
      cases hacc : s.lastEventIds with
      | nil =>
          rw [hacc] at hgt
          simp at hgt
      | cons b bs => simp
    · simp
  · intro l hlen id
    have hbuf := runEvents_buf l initSSE
    have hinit : bufEids initSSE = [] := rfl
    have hinitw : initSSE.lastEventIds = ([] : List String) := rfl
    rw [hinit, hinitw, List.nil_append] at hbuf
    have hfo : firstOccs (evIds l) = (evIds l).foldl insertNew [] := rfl
    rw [hfo] at hlen
    have hp := passes_eq l [] hlen
    simp only [List.length_nil, List.drop_zero] at hp
    have hnd : ((evIds l).foldl insertNew []).Nodup :=
      foldl_insertNew_nodup (evIds l) [] List.nodup_nil
    rw [hbuf, hp]
    exact List.nodup_iff_count_le_one.mp hnd id
open SSE in
theorem dedup_handler_at_most_once_witness :
    (handleEvent "device_status" (some (JVal.obj [("event_id", JVal.str "a")]))
        { initSSE with lastEventIds := ["a"] }
      = { { initSSE with lastEventIds := ["a"] } with heartbeatArmed := true }) ∧
    ("a" ∈ (handleEvent "device_status" (some (JVal.obj [("event_id", JVal.str "a")])) initSSE).lastEventIds ∧
      (handleEvent "device_status" (some (JVal.obj [("event_id", JVal.str "a")])) initSSE).eventBuffer
        = initSSE.eventBuffer ++ [("device_status", JVal.obj [("event_id", JVal.str "a")])]) ∧
    (bufEids (runEvents
        [("device_status", some (JVal.obj [("event_id", JVal.str "a")])),
         ("device_status", some (JVal.obj [("event_id", JVal.str "a")]))] initSSE)).count "a" ≤ 1 := by
  obtain ⟨c1, c2, c3⟩ := SSE.dedup_handler_at_most_once
  refine ⟨?_, ?_, ?_⟩
  · exact c1 "device_status" (JVal.obj [("event_id", JVal.str "a")]) "a"
      { initSSE with lastEventIds := ["a"] } rfl (by decide)
  · exact c2 "device_status" (JVal.obj [("event_id", JVal.str "a")]) "a" initSSE rfl (by decide)
  · exact c3 _ (by decide) "a"

set_option maxRecDepth 100000 in
open SSE in
/-- Claim C4, counterexample to the original statement: in the sequence that
sends id 0, then 100 further distinct ids, then id 0 again, the window (cap
100) evicts id 0 before its duplicate arrives, so id 0 reaches the buffer and
the flush dispatch list twice: the handler fires twice for a duplicated id. -/
theorem dedup_eviction_refires_counterexample :
    (bufEids (runEvents
      (((List.range 101).map (fun i =>
          (("device_status", some (JVal.obj [("event_id", JVal.str (Nat.repr i))])) : InEvent)))
        ++ [("device_status", some (JVal.obj [("event_id", JVal.str "0")]))])
      initSSE)).count "0" = 2 ∧
    (flushDispatches (runEvents
      (((List.range 101).map (fun i =>
          (("device_status", some (JVal.obj [("event_id", JVal.str (Nat.repr i))])) : InEvent)))
        ++ [("device_status", some (JVal.obj [("event_id", JVal.str "0")]))])
      initSSE).eventBuffer).countP (fun e => eidOf e.2 == some "0") = 2 := by
  constructor <;> decide
/-- Claim C9: the dedup window never exceeds 100 ids (single step, and along any
run from the initial state, where it also stays duplicate-free); inserting a
new id into a full window evicts the oldest id (the head, FIFO) and appends
the new id; and an evicted id is no longer in the window, so resending it
passes it through to the buffer again. -/
theorem SSE.dedup_window_bounded_fifo :
    (∀ (t : String) (raw : Option JVal) (s : SSEState), s.lastEventIds.length ≤ 100 →
        (handleEvent t raw s).lastEventIds.length ≤ 100) ∧
    (∀ l : List InEvent, (runEvents l initSSE).lastEventIds.length ≤ 100 ∧
        (runEvents l initSSE).lastEventIds.Nodup) ∧
    (∀ (t : String) (data : JVal) (id : String) (s : SSEState),
        eidOf data = some id → id ∉ s.lastEventIds → s.lastEventIds.length = 100 →
        (handleEvent t (some data) s).lastEventIds = s.lastEventIds.tail ++ [id]) ∧
    (∀ (t t2 : String) (data data2 : JVal) (id x : String) (s : SSEState),
        eidOf data = some id → eidOf data2 = some x →
        id ∉ s.lastEventIds → s.lastEventIds.length = 100 →
        s.lastEventIds.Nodup → s.lastEventIds.head? = some x → x ≠ id →
        x ∉ (handleEvent t (some data) s).lastEventIds ∧
        (handleEvent t2 (some data2) (handleEvent t (some data) s)).eventBuffer
          = (handleEvent t (some data) s).eventBuffer ++ [(t2, data2)]) := by
  have hfifo : ∀ (t : String) (data : JVal) (id : String) (s : SSEState),
      eidOf data = some id → id ∉ s.lastEventIds → s.lastEventIds.length = 100 →
      (handleEvent t (some data) s).lastEventIds = s.lastEventIds.tail ++ [id] := by
    intro t data id s h1 h2 h3
    obtain ⟨hw, _⟩ := handleEvent_new t data id s h1 h2
    rw [hw]
    have hgt : 100 < (s.lastEventIds ++ [id]).length := by
      simp [h3]
    simp only [windAdd, hgt, if_true, ite_true]
    cases hacc : s.lastEventIds with
    | nil =>
        rw [hacc] at h3
        simp at h3
    | cons b bs => rfl
  refine ⟨?_, ?_, hfifo, ?_⟩
  · intro t raw s h
    exact handleEvent_window_len t raw s h
  · intro l
    have haux : ∀ (l : List InEvent) (s : SSEState),
        s.lastEventIds.length ≤ 100 → s.lastEventIds.Nodup →
        (runEvents l s).lastEventIds.length ≤ 100 ∧ (runEvents l s).lastEventIds.Nodup := by
      intro l
      induction l with
      | nil => intro s h1 h2; exact ⟨h1, h2⟩
      | cons e tl ih =>
          intro s h1 h2
          have hstep : runEvents (e :: tl) s = runEvents tl (handleEvent e.1 e.2 s) := rfl
          rw [hstep]
          exact ih _ (handleEvent_window_len e.1 e.2 s h1) (handleEvent_window_nodup e.1 e.2 s h2)
    exact haux l initSSE (by decide) (by decide)
  · intro t t2 data data2 id x s h1 h1b h2 h3 h4 h5 h6
    have hw := hfifo t data id s h1 h2 h3
    have hxout : x ∉ (handleEvent t (some data) s).lastEventIds := by
      rw [hw]
      cases hacc : s.lastEventIds with
      | nil =>
          rw [hacc] at h3
          simp at h3
      | cons b bs =>
          rw [hacc] at h4 h5
          simp only [List.head?_cons, Option.some.injEq] at h5
          subst h5
          simp only [List.tail_cons]
          intro hmem
          rcases List.mem_append.mp hmem with hin | hin
          · exact (List.nodup_cons.mp h4).1 hin
          · simp only [List.mem_singleton] at hin
            exact h6 hin
    refine ⟨hxout, ?_⟩
    exact (handleEvent_new t2 data2 x (handleEvent t (some data) s) h1b hxout).2

open SSE in
theorem dedup_window_bounded_fifo_witness :
    (handleEvent "device_status" none initSSE).lastEventIds.length ≤ 100 ∧
    (runEvents [("device_status", some (JVal.obj [("event_id", JVal.str "a")]))] initSSE).lastEventIds.length ≤ 100 ∧
    (handleEvent "device_status" (some (JVal.obj [("event_id", JVal.str "100")]))
        { initSSE with lastEventIds := (List.range 100).map Nat.repr }).lastEventIds
      = ((List.range 100).map Nat.repr).tail ++ ["100"] ∧
    ("0" ∉ (handleEvent "device_status" (some (JVal.obj [("event_id", JVal.str "100")]))
        { initSSE with lastEventIds := (List.range 100).map Nat.repr }).lastEventIds) := by
  obtain ⟨c1, c2, c3, c4⟩ := SSE.dedup_window_bounded_fifo
  refine ⟨?_, ?_, ?_, ?_⟩
  · exact c1 "device_status" none initSSE (by decide)
  · exact (c2 _).1
  · exact c3 "device_status" (JVal.obj [("event_id", JVal.str "100")]) "100"
      { initSSE with lastEventIds := (List.range 100).map Nat.repr } rfl (by decide) (by decide)
  · exact (c4 "device_status" "device_status"
      (JVal.obj [("event_id", JVal.str "100")]) (JVal.obj [("event_id", JVal.str "0")])
      "100" "0"
      { initSSE with lastEventIds := (List.range 100).map Nat.repr }
      rfl rfl (by decide) (by decide) (by decide) (by decide) (by decide)).1
